import Mathlib

/-!
Verification of the pager gesture disambiguator and the sequential
string ID generator of a React/React Native social-network client.

The definitions below are shallow embeddings of the TypeScript source:
the `StringIdGenerator` test-fixture class, the native `Pager`
component's scroll-event handlers, and the web `Pager` component's
tab-selection handler.  Scroll offsets and pixel coordinates are
modelled as rationals (only order comparisons occur in the source),
page indices as naturals, and the native component's
`lastDirection.current` ref (the numbers 0 / -1 / 1) as an integer.
-/

namespace BskyPager

/-- The default constructor argument of `StringIdGenerator`:
`_chars = 'abcdefghijklmnopqrstuvwxyzABCDEFGHIJKLMNOPQRSTUVWXYZ'`. -/
def defaultChars : List Char :=
  "abcdefghijklmnopqrstuvwxyzABCDEFGHIJKLMNOPQRSTUVWXYZ".data

/-- The `_increment()` method: add one to the least-significant digit
(stored first); a digit reaching `_chars.length` wraps to `0` and
carries; a carry past the last stored digit appends a fresh `0`. -/
def _increment (charsLen : Nat) : List Nat → List Nat
  | [] => [0]
  | d :: rest =>
      if d + 1 ≥ charsLen then 0 :: _increment charsLen rest
      else (d + 1) :: rest

/-- The rendering loop of `next()`: each digit is mapped to its
alphabet character and `unshift`ed, so the least-significant digit
ends up last in the returned string. -/
def renderId (chars : List Char) (digits : List Nat) : String :=
  String.mk ((digits.map (fun d => chars.getD d 'a')).reverse)

/-- The `StringIdGenerator` class: an alphabet `_chars` and the
little-endian digit list `_nextId`. -/
structure StringIdGenerator where
  _chars : List Char
  _nextId : List Nat
deriving DecidableEq

/-- `new StringIdGenerator()` with the default alphabet: `_nextId = [0]`. -/
def newIdGen : StringIdGenerator :=
  { _chars := defaultChars, _nextId := [0] }

/-- The `next()` method: render the current digit list, then increment;
returns the rendered string alongside the successor generator state. -/
def StringIdGenerator.next (g : StringIdGenerator) : String × StringIdGenerator :=
  (renderId g._chars g._nextId,
   { _chars := g._chars, _nextId := _increment g._chars.length g._nextId })

/-- Generator state after `n` calls to `next()` on a fresh default generator. -/
def genAfter (n : Nat) : StringIdGenerator :=
  (fun g => g.next.2)^[n] newIdGen

/-- The digit list held by the fresh default generator when producing
its zero-indexed call-`n` output. -/
def nthState (n : Nat) : List Nat :=
  (_increment defaultChars.length)^[n] [0]

/-- The string returned by the zero-indexed call number `n` of `next()`
on a fresh default generator. -/
def nthOutput (n : Nat) : String :=
  (genAfter n).next.1

/-- Reverse-mapping a rendered string back to the stored digit list:
read the characters most-significant first and reverse into the
little-endian storage order. -/
def parseId (s : String) : List Nat :=
  (s.data.map (fun c => defaultChars.indexOf c)).reverse

/-- Every stored digit indexes into the alphabet. -/
def validState (l : List Nat) : Prop :=
  ∀ d ∈ l, d < defaultChars.length

/-- The position of a digit list in the bijective enumeration: the
fresh state `[0]` has value `1`, and `_increment` adds one. -/
def idValue : List Nat → Nat
  | [] => 0
  | d :: rest => 1 + d + defaultChars.length * idValue rest

/-- Callbacks the pager components invoke on their props. -/
inductive Output where
  | pageSelecting (index : Nat)
  | pageSelected (index : Nat)
  | scrollStateChanged (phase : String)
deriving DecidableEq

/-- Imperative commands the native component issues to the underlying
platform `PagerView` (via `pagerView.current?.setPage`). -/
inductive PlatformCmd where
  | platformSetPage (index : Nat)
deriving DecidableEq

/-- State of the native `Pager`: the `selectedPage` React state and the
`lastOffset`, `lastDirection` and `scrollState` refs. -/
structure NativeState where
  selectedPage : Nat
  lastOffset : ℚ
  lastDirection : ℤ
  scrollState : String
deriving DecidableEq

/-- Initial native state: `useState(0)` for `selectedPage` (the
`initialPage` prop is forwarded to the platform view only), and the
refs start at `0`, `0`, `''`. -/
def nativeInitState (initialPage : Nat) : NativeState :=
  { selectedPage := 0, lastOffset := 0, lastDirection := 0, scrollState := "" }

/-- The `onPageSelectedInner` handler for the platform's page-selected
event: commit the position and call the `onPageSelected` prop. -/
def onPageSelectedInner (s : NativeState) (position : Nat) :
    NativeState × List Output :=
  ({ s with selectedPage := position }, [Output.pageSelected position])

/-- The `onPageScroll` handler: ignore zero offsets; during `settling`
commit forward/backward when the offset keeps moving with the
remembered direction, resetting `lastDirection`; outside `settling`
track the direction; always store the offset as `lastOffset`. -/
def onPageScroll (s : NativeState) (position : Nat) (offset : ℚ) :
    NativeState × List Output :=
  if offset = 0 then (s, [])
  else if s.scrollState = "settling" then
    if s.lastDirection = -1 ∧ offset < s.lastOffset then
      ({ s with selectedPage := position, lastDirection := 0, lastOffset := offset },
       [Output.pageSelecting position])
    else if s.lastDirection = 1 ∧ offset > s.lastOffset then
      ({ s with selectedPage := position + 1, lastDirection := 0, lastOffset := offset },
       [Output.pageSelecting (position + 1)])
    else
      ({ s with lastOffset := offset }, [])
  else
    if offset < s.lastOffset then
      ({ s with lastDirection := -1, lastOffset := offset }, [])
    else if offset > s.lastOffset then
      ({ s with lastDirection := 1, lastOffset := offset }, [])
    else
      ({ s with lastOffset := offset }, [])

/-- The `handlePageScrollStateChanged` handler: record the phase and
forward it to the `onPageScrollStateChanged` prop. -/
def handlePageScrollStateChanged (s : NativeState) (phase : String) :
    NativeState × List Output :=
  ({ s with scrollState := phase }, [Output.scrollStateChanged phase])

/-- The native imperative handle's `setPage`: it only calls
`pagerView.current?.setPage(index)` — no local state change and no
callback. -/
def nativeSetPage (s : NativeState) (index : Nat) :
    NativeState × List Output × List PlatformCmd :=
  (s, [], [PlatformCmd.platformSetPage index])

/-- Process a sequence of `onPageScroll` events, concatenating the
emitted callbacks. -/
def processScrolls (s : NativeState) : List (Nat × ℚ) → NativeState × List Output
  | [] => (s, [])
  | e :: rest =>
      let r := onPageScroll s e.1 e.2
      let r2 := processScrolls r.1 rest
      (r2.1, r.2 ++ r2.2)

/-- Number of `onPageSelecting` callbacks in an output list. -/
def countSelecting (outs : List Output) : Nat :=
  outs.countP (fun o => match o with
    | Output.pageSelecting _ => true
    | _ => false)

/-- State of the web `Pager`: the `selectedPage` React state and the
`scrollYs` ref, a sparse array of recorded scroll offsets. -/
structure WebState where
  selectedPage : Nat
  scrollYs : Nat → Option ℚ

/-- Initial web state: `useState(initialPage)` and an empty `scrollYs`. -/
def webInitState (initialPage : Nat) : WebState :=
  { selectedPage := initialPage, scrollYs := fun _ => none }

/-- The web imperative handle's `setPage`: it only calls
`setSelectedPage(index)` — no callback is invoked. -/
def webSetPage (s : WebState) (index : Nat) : WebState × List Output :=
  ({ s with selectedPage := index }, [])

/-- The web `onTabBarSelect` handler.  `scrollY` is `window.scrollY` at
entry and `anchorTop` the measured `getBoundingClientRect().top` of the
anchor element.  Returns the new state, the callbacks invoked inside
`flushSync` (in source order), and the argument of the `window.scrollTo`
call when one is performed. -/
def onTabBarSelect (s : WebState) (index : Nat) (scrollY anchorTop : ℚ) :
    WebState × List Output × Option ℚ :=
  let isSticking : Bool := anchorTop ≤ 5
  let scrollYs1 : Nat → Option ℚ := fun p =>
    if p = s.selectedPage then (if isSticking then some scrollY else none)
    else s.scrollYs p
  let s1 : WebState := { selectedPage := index, scrollYs := scrollYs1 }
  let outs : List Output := [Output.pageSelected index, Output.pageSelecting index]
  let cmd : Option ℚ :=
    if isSticking then
      match scrollYs1 index with
      | some restoredScrollY => some restoredScrollY
      | none => some (scrollY + anchorTop)
    else none
  (s1, outs, cmd)

/-! ### Helper lemmas for the ID generator -/

theorem genAfter_eq (n : Nat) :
    genAfter n = { _chars := defaultChars, _nextId := nthState n } := by
  induction n with
  | zero => rfl
  | succ k ih =>
      unfold genAfter nthState
      rw [Function.iterate_succ_apply', Function.iterate_succ_apply']
      unfold genAfter nthState at ih
      rw [ih]
      rfl

theorem nthOutput_eq (n : Nat) :
    nthOutput n = renderId defaultChars (nthState n) := by
  unfold nthOutput
  rw [genAfter_eq]
  rfl

theorem validState_nil : validState [] := by
  intro d hd
  cases hd

theorem validState_increment (l : List Nat) (h : validState l) :
    validState (_increment defaultChars.length l) := by
  induction l with
  | nil =>
      intro d hd
      simp only [_increment, List.mem_singleton] at hd
      subst hd
      decide
  | cons a rest ih =>
      intro d hd
      simp only [_increment] at hd
      split at hd
      · rcases List.mem_cons.mp hd with h0 | hmem
        · subst h0; decide
        · exact ih (fun x hx => h x (List.mem_cons_of_mem a hx)) d hmem
      · rcases List.mem_cons.mp hd with h0 | hmem
        · subst h0
          omega
        · exact h d (List.mem_cons_of_mem a hmem)

theorem validState_nthState (n : Nat) : validState (nthState n) := by
  induction n with
  | zero =>
      intro d hd
      simp only [nthState, Function.iterate_zero, id_eq, List.mem_singleton] at hd
      subst hd
      decide
  | succ k ih =>
      unfold nthState
      rw [Function.iterate_succ_apply']
      exact validState_increment _ ih

theorem idValue_increment (l : List Nat) (h : validState l) :
    idValue (_increment defaultChars.length l) = idValue l + 1 := by
  induction l with
  | nil => rfl
  | cons a rest ih =>
      have ha : a < defaultChars.length := h a (List.mem_cons_self a rest)
      by_cases hc : a + 1 ≥ defaultChars.length
      · have ha1 : a + 1 = defaultChars.length := by omega
        have hrest : validState rest :=
          fun x hx => h x (List.mem_cons_of_mem a hx)
        simp only [_increment, if_pos hc, idValue, ih hrest]
        rw [Nat.mul_add, Nat.mul_one]
        omega
      · simp only [_increment, if_neg hc, idValue]
        omega

theorem nthState_succ (k : Nat) :
    nthState (k + 1) = _increment defaultChars.length (nthState k) := by
  unfold nthState
  rw [Function.iterate_succ_apply']

theorem idValue_nthState (n : Nat) : idValue (nthState n) = n + 1 := by
  induction n with
  | zero => rfl
  | succ k ih =>
      rw [nthState_succ, idValue_increment _ (validState_nthState k), ih]

theorem indexOf_getD_defaultChars :
    ∀ d < defaultChars.length, defaultChars.indexOf (defaultChars.getD d 'a') = d := by
  decide

theorem parse_render (l : List Nat) (h : validState l) :
    parseId (renderId defaultChars l) = l := by
  unfold parseId renderId
  simp only [List.map_reverse, List.reverse_reverse, List.map_map]
  conv_rhs => rw [← List.map_id l]
  apply List.map_congr_left
  intro d hd
  exact indexOf_getD_defaultChars d (h d hd)

theorem nthState_injective (m n : Nat) (h : nthState m = nthState n) : m = n := by
  have h2 := congrArg idValue h
  rw [idValue_nthState, idValue_nthState] at h2
  omega

/-! ### Helper lemmas for the native pager -/

theorem onPageScroll_scrollState (s : NativeState) (p : Nat) (o : ℚ) :
    (onPageScroll s p o).1.scrollState = s.scrollState := by
  unfold onPageScroll
  split_ifs <;> rfl

theorem onPageScroll_settling_dir0 (s : NativeState) (p : Nat) (o : ℚ)
    (hph : s.scrollState = "settling") (hd : s.lastDirection = 0) :
    (onPageScroll s p o).2 = [] ∧ (onPageScroll s p o).1.lastDirection = 0 := by
  by_cases h1 : o = 0
  · unfold onPageScroll
    rw [if_pos h1]
    exact ⟨rfl, hd⟩
  · have hA : ¬(s.lastDirection = -1 ∧ o < s.lastOffset) := by
      rintro ⟨hx, -⟩
      rw [hd] at hx
      exact absurd hx (by decide)
    have hB : ¬(s.lastDirection = 1 ∧ o > s.lastOffset) := by
      rintro ⟨hx, -⟩
      rw [hd] at hx
      exact absurd hx (by decide)
    unfold onPageScroll
    rw [if_neg h1, if_pos hph, if_neg hA, if_neg hB]
    exact ⟨rfl, hd⟩

theorem processScrolls_settling_dir0 (evs : List (Nat × ℚ)) (s : NativeState)
    (hph : s.scrollState = "settling") (hd : s.lastDirection = 0) :
    (processScrolls s evs).2 = [] := by
  induction evs generalizing s with
  | nil => rfl
  | cons e rest ih =>
      have h := onPageScroll_settling_dir0 s e.1 e.2 hph hd
      have hph2 : (onPageScroll s e.1 e.2).1.scrollState = "settling" := by
        rw [onPageScroll_scrollState]
        exact hph
      simp only [processScrolls]
      rw [h.1, List.nil_append]
      exact ih _ hph2 h.2

theorem onPageScroll_settling_cases (s : NativeState) (p : Nat) (o : ℚ)
    (hph : s.scrollState = "settling") :
    ((onPageScroll s p o).2 = [] ∧
      (onPageScroll s p o).1.lastDirection = s.lastDirection) ∨
    (countSelecting (onPageScroll s p o).2 = 1 ∧
      (onPageScroll s p o).1.lastDirection = 0) := by
  by_cases h1 : o = 0
  · unfold onPageScroll
    rw [if_pos h1]
    exact Or.inl ⟨rfl, rfl⟩
  · by_cases hA : s.lastDirection = -1 ∧ o < s.lastOffset
    · unfold onPageScroll
      rw [if_neg h1, if_pos hph, if_pos hA]
      exact Or.inr ⟨rfl, rfl⟩
    · by_cases hB : s.lastDirection = 1 ∧ o > s.lastOffset
      · unfold onPageScroll
        rw [if_neg h1, if_pos hph, if_neg hA, if_pos hB]
        exact Or.inr ⟨rfl, rfl⟩
      · unfold onPageScroll
        rw [if_neg h1, if_pos hph, if_neg hA, if_neg hB]
        exact Or.inl ⟨rfl, rfl⟩

theorem countSelecting_append (a b : List Output) :
    countSelecting (a ++ b) = countSelecting a + countSelecting b :=
  List.countP_append _ _ _

/-! ### Claim theorems -/

/-- C1 (counterexample): with `k = 1` from the fresh state, the web
Pager's `setPage` emits no `onPageSelected` callback, and the native
Pager's `setPage` does not commit `selectedPage = 1` — it stays `0`.
This refutes the claim that `setPage(k)` immediately commits
`selectedPage = k` and emits `onPageSelected(k)`. -/
theorem setPage_claim_cex :
    (webSetPage (webInitState 0) 1).2 = [] ∧
    (nativeSetPage (nativeInitState 0) 1).1.selectedPage = 0 :=
  ⟨rfl, rfl⟩

/-- C1 (amended): the web Pager's `setPage(k)` immediately commits
`selectedPage = k` but emits no callback; the native Pager's
`setPage(k)` leaves the component state and callbacks untouched and
only issues a platform `setPage(k)` command, and the commit together
with the `onPageSelected(k)` emission happens when the platform's
page-selected event for `k` is processed. -/
theorem setPage_amended (w : WebState) (s : NativeState) (k : Nat) :
    (webSetPage w k).1.selectedPage = k ∧
    (webSetPage w k).2 = [] ∧
    nativeSetPage s k = (s, [], [PlatformCmd.platformSetPage k]) ∧
    onPageSelectedInner s k =
      ({ s with selectedPage := k }, [Output.pageSelected k]) :=
  ⟨rfl, rfl, rfl, rfl⟩

/-- C2 (counterexample): the default alphabet does not have 62
characters, and the zero-indexed call 52 — within the first 62 calls —
already returns a string that is not a single character. -/
theorem id_alphabet_cex :
    defaultChars.length ≠ 62 ∧ (nthOutput 52).length ≠ 1 := by
  constructor
  · decide
  · decide

/-- C2 (amended): the default alphabet has 52 characters; a fresh
generator returns single-character strings for its first 52 calls and
returns a 2-character string for the first time exactly on the
zero-indexed call 52 (the 53rd call). -/
theorem id_alphabet52 :
    defaultChars.length = 52 ∧
    ((List.range 52).map (fun n => (nthOutput n).length)).all (fun k => k == 1) = true ∧
    (nthOutput 52).length = 2 := by
  refine ⟨by decide, by decide, by decide⟩

/-- C3: an `onScroll` event with nonzero offset arriving while the
phase is `settling`, `lastDirection = 1` (Forward) and the offset
strictly greater than `lastOffset` emits exactly one
`onPageSelecting(position + 1)`, commits `selectedPage = position + 1`
and resets `lastDirection` to `0` in the post-state, before any
further offset event is processed. -/
theorem settling_forward_commit (s : NativeState) (position : Nat) (offset : ℚ)
    (hoff : offset ≠ 0) (hph : s.scrollState = "settling")
    (hdir : s.lastDirection = 1) (hgt : offset > s.lastOffset) :
    onPageScroll s position offset =
      ({ s with selectedPage := position + 1, lastDirection := 0,
                lastOffset := offset },
       [Output.pageSelecting (position + 1)]) := by
  have hA : ¬(s.lastDirection = -1 ∧ offset < s.lastOffset) := by
    rintro ⟨hx, -⟩
    rw [hdir] at hx
    exact absurd hx (by decide)
  unfold onPageScroll
  rw [if_neg hoff, if_pos hph, if_neg hA, if_pos ⟨hdir, hgt⟩]

/-- Witness for C3 at a concrete state and event. -/
theorem settling_forward_commit_witness :
    onPageScroll ⟨0, 1, 1, "settling"⟩ 0 2 =
      (⟨1, 2, 0, "settling"⟩, [Output.pageSelecting 1]) :=
  settling_forward_commit ⟨0, 1, 1, "settling"⟩ 0 2 (by norm_num) rfl rfl
    (by norm_num)

/-- C4: the generator never repeats — outputs at distinct call numbers
are distinct strings. -/
theorem next_never_repeats (m n : Nat) (h : m ≠ n) :
    nthOutput m ≠ nthOutput n := by
  intro heq
  apply h
  apply nthState_injective
  have h2 := congrArg parseId heq
  rw [nthOutput_eq, nthOutput_eq, parse_render _ (validState_nthState m),
      parse_render _ (validState_nthState n)] at h2
  exact h2

/-- Witness for C4 at calls 0 and 1. -/
theorem next_never_repeats_witness : nthOutput 0 ≠ nthOutput 1 :=
  next_never_repeats 0 1 (by decide)

/-- C5: from any state in the `settling` phase, processing any
sequence of `onScroll` events emits at most one `onPageSelecting`
notification. -/
theorem settling_at_most_one_selecting (evs : List (Nat × ℚ)) (s : NativeState)
    (hph : s.scrollState = "settling") :
    countSelecting (processScrolls s evs).2 ≤ 1 := by
  induction evs generalizing s with
  | nil => simp [processScrolls, countSelecting]
  | cons e rest ih =>
      have hph2 : (onPageScroll s e.1 e.2).1.scrollState = "settling" := by
        rw [onPageScroll_scrollState]
        exact hph
      simp only [processScrolls, countSelecting_append]
      rcases onPageScroll_settling_cases s e.1 e.2 hph with ⟨h1, _⟩ | ⟨h1, h2⟩
      · rw [h1]
        simpa [countSelecting] using ih _ hph2
      · rw [h1, processScrolls_settling_dir0 rest _ hph2 h2]
        simp [countSelecting]

/-- Witness for C5 at a concrete settling state and two forward events. -/
theorem settling_at_most_one_selecting_witness :
    countSelecting (processScrolls ⟨0, 1, 1, "settling"⟩ [(0, 2), (0, 3)]).2 ≤ 1 :=
  settling_at_most_one_selecting [(0, 2), (0, 3)] ⟨0, 1, 1, "settling"⟩ rfl

/-- C6: a sequence of `onScroll` events whose offsets are all `0` is a
complete no-op — the state (in particular `selectedPage`, `lastOffset`
and `lastDirection`) is unchanged and nothing is emitted. -/
theorem zero_offset_noop (s : NativeState) (evs : List (Nat × ℚ))
    (h : ∀ e ∈ evs, e.2 = 0) : processScrolls s evs = (s, []) := by
  induction evs generalizing s with
  | nil => rfl
  | cons e rest ih =>
      have he : e.2 = 0 := h e (List.mem_cons_self e rest)
      have h0 : onPageScroll s e.1 e.2 = (s, []) := by
        unfold onPageScroll
        rw [if_pos he]
      simp only [processScrolls, h0]
      rw [ih s (fun x hx => h x (List.mem_cons_of_mem e hx))]
      rfl

/-- Witness for C6 on two zero-offset events. -/
theorem zero_offset_noop_witness :
    processScrolls (nativeInitState 0) [(0, 0), (1, 0)] = (nativeInitState 0, []) :=
  zero_offset_noop (nativeInitState 0) [(0, 0), (1, 0)] (by decide)

/-- C7: reverse-mapping the characters of the output of call `n` back
to alphabet indices, reading most-significant first (reversing into
storage order), reconstructs exactly the digit list the generator held
when producing that output. -/
theorem id_roundtrip (n : Nat) : parseId (nthOutput n) = nthState n := by
  rw [nthOutput_eq]
  exact parse_render _ (validState_nthState n)

/-- C8 (counterexample): the output of call 53 — the one right after
`"aa"` — is not `"ba"`. -/
theorem id_sequence_cex : nthOutput 53 ≠ "ba" := by
  decide

/-- C8 (amended): a fresh generator's outputs begin `"a"`, `"b"`, ...,
`"Z"` (the 52 single characters in alphabet order), then `"aa"`, then
`"ab"` — the least-significant digit varies fastest and is rendered
last. -/
theorem id_sequence_start :
    (List.range 54).map nthOutput =
    ["a", "b", "c", "d", "e", "f", "g", "h", "i", "j",
     "k", "l", "m", "n", "o", "p", "q", "r", "s", "t",
     "u", "v", "w", "x", "y", "z", "A", "B", "C", "D",
     "E", "F", "G", "H", "I", "J", "K", "L", "M", "N",
     "O", "P", "Q", "R", "S", "T", "U", "V", "W", "X",
     "Y", "Z", "aa", "ab"] := by
  decide

/-- C9: on every web `onSelect(index)`: the commit sets
`selectedPage = index` and invokes `onPageSelected(index)` then
`onPageSelecting(index)`; if the anchor is sticking
(`anchorTop ≤ 5`), the current scroll offset is recorded against the
outgoing page and the scroll target is the offset recorded for the
incoming page if one exists, else `scrollY + anchorTop`; if not
sticking, `null` is recorded for the outgoing page and no scroll is
performed. -/
theorem onTabBarSelect_spec (s : WebState) (index : Nat) (scrollY anchorTop : ℚ) :
    (onTabBarSelect s index scrollY anchorTop).1.selectedPage = index ∧
    (onTabBarSelect s index scrollY anchorTop).2.1 =
      [Output.pageSelected index, Output.pageSelecting index] ∧
    (anchorTop ≤ 5 →
      (onTabBarSelect s index scrollY anchorTop).1.scrollYs s.selectedPage =
        some scrollY ∧
      (onTabBarSelect s index scrollY anchorTop).2.2 =
        some (((onTabBarSelect s index scrollY anchorTop).1.scrollYs index).getD
          (scrollY + anchorTop))) ∧
    (¬ anchorTop ≤ 5 →
      (onTabBarSelect s index scrollY anchorTop).1.scrollYs s.selectedPage =
        none ∧
      (onTabBarSelect s index scrollY anchorTop).2.2 = none) := by
  refine ⟨rfl, rfl, ?_, ?_⟩
  · intro hst
    have hb : (decide (anchorTop ≤ 5)) = true := decide_eq_true hst
    constructor
    · simp [onTabBarSelect, hb]
    · simp only [onTabBarSelect, hb, if_true, if_pos rfl]
      cases hix : (if index = s.selectedPage then some scrollY else s.scrollYs index) with
      | none => simp [hix]
      | some y => simp [hix]
  · intro hst
    have hb : (decide (anchorTop ≤ 5)) = false := decide_eq_false hst
    constructor
    · simp [onTabBarSelect, hb]
    · simp [onTabBarSelect, hb]

/-- Witness for C9 at a concrete sticking selection. -/
theorem onTabBarSelect_spec_witness :
    (onTabBarSelect (webInitState 0) 1 100 3).1.selectedPage = 1 ∧
    (onTabBarSelect (webInitState 0) 1 100 3).1.scrollYs 0 = some 100 ∧
    (onTabBarSelect (webInitState 0) 1 100 3).2.2 = some (100 + 3) := by
  have h := onTabBarSelect_spec (webInitState 0) 1 100 3
  have hst : (3 : ℚ) ≤ 5 := by norm_num
  exact ⟨h.1, (h.2.2.1 hst).1, (h.2.2.1 hst).2⟩

/-- C10: before any event is processed, the native Pager's committed
`selectedPage` is `0` regardless of the `initialPage` prop, while the
web Pager's is `initialPage`; the two variants disagree whenever
`initialPage` is nonzero. -/
theorem initial_page_divergence (p : Nat) (hp : p ≠ 0) :
    (nativeInitState p).selectedPage = 0 ∧
    (webInitState p).selectedPage = p ∧
    (nativeInitState p).selectedPage ≠ (webInitState p).selectedPage := by
  refine ⟨rfl, rfl, ?_⟩
  simpa [nativeInitState, webInitState] using Ne.symm hp

/-- Witness for C10 at `initialPage = 1`. -/
theorem initial_page_divergence_witness :
    (nativeInitState 1).selectedPage = 0 ∧
    (webInitState 1).selectedPage = 1 ∧
    (nativeInitState 1).selectedPage ≠ (webInitState 1).selectedPage :=
  initial_page_divergence 1 (by decide)

end BskyPager
